import Mathlib

/-
Verification of the bounded research-fetch pipeline of the Wikipedia
Research Agent (src/Deep_research.py).

The Python code is shallowly embedded: HTTP responses and the wall clock
are inputs (an `Env`), and each Python function becomes a total Lean
function on those inputs.

Conventions of the embedding:
- Python strings are Lean `String`s; `s[:n]` is `pyTake n s` and
  `s.replace(" ", "_")` is `pyReplaceSpaceUnderscore s`.
- The i-th deadline check `time.time() - start_time > time_limit` reads
  `clock i > time_limit`, where `clock i` is the number of elapsed
  seconds at the i-th check.
- The i-th content-fetch HTTP call returns `fetchResp i`; an exception
  raised by the call is `ContentResponse.transportError`, a JSON body
  missing `query`/`pages` is `ContentResponse.malformed`.
- `LoopOut.fetchCalls` counts content-fetch HTTP calls actually issued,
  and `LoopOut.brokeEarly` records whether the loop left via the
  deadline `break` (both are observations of events in the source, not
  extra program state).
-/

namespace Wiki

/-- Python string slicing `s[:n]`: the first `n` characters of `s`. -/
def pyTake (n : Nat) (s : String) : String := ⟨s.data.take n⟩

/-- Python `s.replace(" ", "_")`: every space becomes an underscore. -/
def pyReplaceSpaceUnderscore (s : String) : String :=
  ⟨s.data.map (fun c => if c = ' ' then '_' else c)⟩

/-- One entry of `results["sources"]` (title, url, snippet). -/
structure SourceRecord where
  title : String
  url : String
  snippet : String
deriving Repr, DecidableEq

/-- The `data` dict of a successful run: query, sources, summary. -/
structure ResearchResult where
  query : String
  sources : List SourceRecord
  summary : String
deriving Repr, DecidableEq

/-- Return contract of `deep_research`: `{"success": True, "data": ...}`
or `{"success": False, "error": ...}`. -/
inductive Outcome where
  | success (data : ResearchResult)
  | failure (error : String)
deriving Repr, DecidableEq

/-- One entry of the `query.pages` mapping in a content response:
`extract = some e` means the page dict has an `"extract"` key with
value `e` (possibly the empty string); `none` means no such key. -/
structure Page where
  pageid : String
  extract : Option String
deriving Repr, DecidableEq

/-- Outcome of one content-fetch HTTP call, as seen by the loop body. -/
inductive ContentResponse where
  | transportError (msg : String)
  | malformed
  | ok (pages : List Page)
deriving Repr, DecidableEq

/-- Outcome of the search HTTP call. `transportError` is an exception
escaping to the outer handler; `malformed` is a JSON body without
`query`/`search`; `ok` carries the ordered candidate titles
(`result.get("title", "")` of each search hit). -/
inductive SearchResponse where
  | transportError (msg : String)
  | malformed
  | ok (results : List String)
deriving Repr, DecidableEq

/-- The external world of one `deep_research` run. -/
structure Env where
  searchResp : SearchResponse
  fetchResp : Nat → ContentResponse
  clock : Nat → Nat

/-- `https://en.wikipedia.org/wiki/{title.replace(' ', '_')}`. -/
def wikiUrl (title : String) : String :=
  "https://en.wikipedia.org/wiki/" ++ pyReplaceSpaceUnderscore title

/-- The inner `for page_id, page in pages.items()` loop: the Python dict
preserves response order, and the loop takes the extract of the first
page whose dict has an `"extract"` key, then `break`s. -/
def firstExtract : List Page → Option String
  | [] => none
  | p :: ps =>
    match p.extract with
    | some e => some e
    | none => firstExtract ps

/-- One formatted block appended to `content_summary`. -/
def formatBlock (counter : Nat) (title text url : String) : String :=
  toString counter ++ ". **" ++ title ++ "**\n\n" ++ text ++ "\n\n" ++
    "🔗 Source: " ++ url ++ "\n\n" ++ String.mk (List.replicate 80 '─') ++ "\n\n"

/-- What the candidate loop of `deep_research` has produced when it
ends: accepted sources, summary blocks, how many content fetches were
issued, and whether the loop left via the deadline `break`. -/
structure LoopOut where
  sources : List SourceRecord
  blocks : List String
  fetchCalls : Nat
  brokeEarly : Bool
deriving Repr, DecidableEq

/-- The `for result in search_results[:max_urls]` loop of
`deep_research`, at iteration `i` with display counter `counter`
(Python starts `counter = 1`): check the deadline, fetch the title's
content, and on the first page with an extract append a source and a
block and bump the counter; on any per-item failure skip the title. -/
def researchLoop (time_limit : Nat) (fetch : Nat → ContentResponse)
    (clock : Nat → Nat) : List String → Nat → Nat → LoopOut
  | [], _, _ => ⟨[], [], 0, false⟩
  | title :: rest, i, counter =>
    if clock i > time_limit then
      ⟨[], [], 0, true⟩
    else
      match fetch i with
      | .transportError _ =>
        let r := researchLoop time_limit fetch clock rest (i + 1) counter
        ⟨r.sources, r.blocks, r.fetchCalls + 1, r.brokeEarly⟩
      | .malformed =>
        let r := researchLoop time_limit fetch clock rest (i + 1) counter
        ⟨r.sources, r.blocks, r.fetchCalls + 1, r.brokeEarly⟩
      | .ok pages =>
        match firstExtract pages with
        | none =>
          let r := researchLoop time_limit fetch clock rest (i + 1) counter
          ⟨r.sources, r.blocks, r.fetchCalls + 1, r.brokeEarly⟩
        | some e =>
          let text := pyTake 1200 e
          let url := wikiUrl title
          let r := researchLoop time_limit fetch clock rest (i + 1) (counter + 1)
          ⟨⟨title, url, text⟩ :: r.sources,
           formatBlock counter title text url :: r.blocks,
           r.fetchCalls + 1, r.brokeEarly⟩

/-- `deep_research(query, max_depth, time_limit, max_urls)` against the
environment `env`. `max_depth` is a parameter of the Python function
that its body never reads. -/
def deep_research (query : String) (max_depth : Nat) (time_limit : Nat)
    (max_urls : Nat) (env : Env) : Outcome :=
  match env.searchResp with
  | .transportError msg => .failure ("Research failed: " ++ msg)
  | .malformed => .failure "No search results found"
  | .ok search_results =>
    if search_results.isEmpty then
      .failure ("No results found for '" ++ query ++ "'")
    else
      if (researchLoop time_limit env.fetchResp env.clock
          (search_results.take max_urls) 0 1).blocks.isEmpty then
        .failure "Could not retrieve any content"
      else
        .success ⟨query,
          (researchLoop time_limit env.fetchResp env.clock
            (search_results.take max_urls) 0 1).sources,
          String.join (researchLoop time_limit env.fetchResp env.clock
            (search_results.take max_urls) 0 1).blocks⟩

/-- Number of content-fetch HTTP calls a `deep_research` run issues. -/
def deep_researchFetchCalls (time_limit : Nat) (max_urls : Nat) (env : Env) : Nat :=
  match env.searchResp with
  | .transportError _ => 0
  | .malformed => 0
  | .ok search_results =>
    if search_results.isEmpty then 0
    else (researchLoop time_limit env.fetchResp env.clock
      (search_results.take max_urls) 0 1).fetchCalls

/-- A content-fetch outcome that yields no accepted source: an
exception, a malformed body, or no page with an `"extract"` key. -/
def fetchFails : ContentResponse → Bool
  | .transportError _ => true
  | .malformed => true
  | .ok pages => (firstExtract pages).isNone

/-- A chat message, `{"role": ..., "content": ...}`. -/
structure Message where
  role : String
  content : String
deriving Repr, DecidableEq

/-- Which LLM provider an HTTP/client call was made to. -/
inductive ProviderAttempt where
  | openrouter
  | groq
deriving Repr, DecidableEq

/-- How `call_llm` ends: a returned string, or a raised `RuntimeError`. -/
inductive LlmResult where
  | ok (content : String)
  | raised (msg : String)
deriving Repr, DecidableEq

/-- `call_llm(messages, temperature)`: try OpenRouter when its key is a
non-empty string; on success return its content, on any failure log a
warning and fall through; then try Groq when its key is non-empty,
raising `RuntimeError` on its failure; with no provider left raise
`RuntimeError`. `orResp`/`gqResp` abstract each provider call
(`.ok content` a successful call, `.error msg` any failure); the
returned list records the calls made, in order. `messages` and the
temperature only shape the request payload, never the control flow. -/
def call_llm (messages : List Message) (orKey : String)
    (orResp : Except String String) (gqKey : String)
    (gqResp : Except String String) : LlmResult × List ProviderAttempt :=
  let openrouterStep : Option String × List ProviderAttempt :=
    if orKey ≠ "" then
      match orResp with
      | .ok c => (some c, [.openrouter])
      | .error _ => (none, [.openrouter])
    else (none, [])
  match openrouterStep with
  | (some c, tr) => (.ok c, tr)
  | (none, tr) =>
    if gqKey ≠ "" then
      match gqResp with
      | .ok c => (.ok c, tr ++ [.groq])
      | .error e => (.raised ("Groq call failed: " ++ e), tr ++ [.groq])
    else
      (.raised "No LLM provider available. Set OpenRouter or Groq key in the sidebar.", tr)

/-- The `sources_text` prompt line block built by `generate_summary`:
first 5 sources, each as `- {title}: {snippet[:200]}`. -/
def promptSources (sources : List SourceRecord) : String :=
  String.intercalate "\n"
    ((sources.take 5).map (fun s => "- " ++ s.title ++ ": " ++ pyTake 200 s.snippet))

/-- The `messages` list `generate_summary` passes to `call_llm`. -/
def summaryMessages (research_data : ResearchResult) (query : String) : List Message :=
  [⟨"system", "You are a research expert. Provide a concise, well-structured summary of the research findings in 2-3 paragraphs."⟩,
   ⟨"user", "Topic: " ++ query ++ "\n\nSources:\n" ++ promptSources research_data.sources
     ++ "\n\nPlease summarize the key findings."⟩]

/-- `generate_summary(research_data, query)`: with neither key set
return the fixed unavailable string; otherwise call `call_llm`,
returning its content, and turning a raised error into the
`Summary generation failed: ...` display string via the `except`. The
second component records the provider calls made. -/
def generate_summary (orKey gqKey : String)
    (orResp gqResp : Except String String)
    (research_data : ResearchResult) (query : String) : String × List ProviderAttempt :=
  if orKey = "" ∧ gqKey = "" then
    ("AI summary unavailable - set API key in configuration", [])
  else
    match call_llm (summaryMessages research_data query) orKey orResp gqKey gqResp with
    | (.ok c, tr) => (c, tr)
    | (.raised e, tr) => ("Summary generation failed: " ++ e, tr)

/-! Helper lemmas about the candidate loop. -/

/-- The loop appends a source and a summary block in lockstep. -/
theorem researchLoop_blocks_length (t : Nat) (f : Nat → ContentResponse)
    (c : Nat → Nat) : ∀ (cands : List String) (i k : Nat),
    (researchLoop t f c cands i k).blocks.length
      = (researchLoop t f c cands i k).sources.length
  | [], _, _ => rfl
  | title :: rest, i, k => by
    by_cases h : c i > t
    · simp [researchLoop, h]
    · cases hf : f i with
      | transportError m =>
        simpa [researchLoop, h, hf] using researchLoop_blocks_length t f c rest (i + 1) k
      | malformed =>
        simpa [researchLoop, h, hf] using researchLoop_blocks_length t f c rest (i + 1) k
      | ok pages =>
        cases hfe : firstExtract pages with
        | none =>
          simpa [researchLoop, h, hf, hfe]
            using researchLoop_blocks_length t f c rest (i + 1) k
        | some e =>
          simpa [researchLoop, h, hf, hfe]
            using researchLoop_blocks_length t f c rest (i + 1) (k + 1)

/-- The loop accepts at most one source per candidate. -/
theorem researchLoop_sources_length_le (t : Nat) (f : Nat → ContentResponse)
    (c : Nat → Nat) : ∀ (cands : List String) (i k : Nat),
    (researchLoop t f c cands i k).sources.length ≤ cands.length
  | [], _, _ => Nat.le_refl 0
  | title :: rest, i, k => by
    by_cases h : c i > t
    · simp [researchLoop, h]
    · cases hf : f i with
      | transportError m =>
        simpa [researchLoop, h, hf]
          using Nat.le_succ_of_le (researchLoop_sources_length_le t f c rest (i + 1) k)
      | malformed =>
        simpa [researchLoop, h, hf]
          using Nat.le_succ_of_le (researchLoop_sources_length_le t f c rest (i + 1) k)
      | ok pages =>
        cases hfe : firstExtract pages with
        | none =>
          simpa [researchLoop, h, hf, hfe]
            using Nat.le_succ_of_le (researchLoop_sources_length_le t f c rest (i + 1) k)
        | some e =>
          simpa [researchLoop, h, hf, hfe, Nat.succ_le_succ_iff]
            using researchLoop_sources_length_le t f c rest (i + 1) (k + 1)

/-- The loop issues at most one content fetch per candidate. -/
theorem researchLoop_fetchCalls_le (t : Nat) (f : Nat → ContentResponse)
    (c : Nat → Nat) : ∀ (cands : List String) (i k : Nat),
    (researchLoop t f c cands i k).fetchCalls ≤ cands.length
  | [], _, _ => Nat.le_refl 0
  | title :: rest, i, k => by
    by_cases h : c i > t
    · simp [researchLoop, h]
    · cases hf : f i with
      | transportError m =>
        simpa [researchLoop, h, hf, Nat.succ_le_succ_iff]
          using researchLoop_fetchCalls_le t f c rest (i + 1) k
      | malformed =>
        simpa [researchLoop, h, hf, Nat.succ_le_succ_iff]
          using researchLoop_fetchCalls_le t f c rest (i + 1) k
      | ok pages =>
        cases hfe : firstExtract pages with
        | none =>
          simpa [researchLoop, h, hf, hfe, Nat.succ_le_succ_iff]
            using researchLoop_fetchCalls_le t f c rest (i + 1) k
        | some e =>
          simpa [researchLoop, h, hf, hfe, Nat.succ_le_succ_iff]
            using researchLoop_fetchCalls_le t f c rest (i + 1) (k + 1)

/-- Every accepted source carries as its snippet the 1200-character
truncation of the extract some content fetch of the run returned, and
the canonical URL built from its own title. -/
theorem researchLoop_mem_sources (t : Nat) (f : Nat → ContentResponse)
    (c : Nat → Nat) : ∀ (cands : List String) (i k : Nat) (s : SourceRecord),
    s ∈ (researchLoop t f c cands i k).sources →
    s.url = wikiUrl s.title ∧
      ∃ j pages e, f j = .ok pages ∧ firstExtract pages = some e ∧
        s.snippet = pyTake 1200 e
  | [], _, _, s => by intro h; simp [researchLoop] at h
  | title :: rest, i, k, s => by
    intro hmem
    by_cases h : c i > t
    · simp [researchLoop, h] at hmem
    · cases hf : f i with
      | transportError m =>
        rw [researchLoop] at hmem
        simp only [if_neg h, hf] at hmem
        exact researchLoop_mem_sources t f c rest (i + 1) k s hmem
      | malformed =>
        rw [researchLoop] at hmem
        simp only [if_neg h, hf] at hmem
        exact researchLoop_mem_sources t f c rest (i + 1) k s hmem
      | ok pages =>
        cases hfe : firstExtract pages with
        | none =>
          rw [researchLoop] at hmem
          simp only [if_neg h, hf, hfe] at hmem
          exact researchLoop_mem_sources t f c rest (i + 1) k s hmem
        | some e =>
          rw [researchLoop] at hmem
          simp only [if_neg h, hf, hfe, List.mem_cons] at hmem
          rcases hmem with rfl | hmem
          · exact ⟨rfl, i, pages, e, hf, hfe, rfl⟩
          · exact researchLoop_mem_sources t f c rest (i + 1) (k + 1) s hmem

/-- When every fetch outcome fails, the loop accepts nothing. -/
theorem researchLoop_all_fail (t : Nat) (f : Nat → ContentResponse)
    (c : Nat → Nat) (hf : ∀ j, fetchFails (f j) = true) :
    ∀ (cands : List String) (i k : Nat),
    (researchLoop t f c cands i k).sources = []
      ∧ (researchLoop t f c cands i k).blocks = []
  | [], _, _ => ⟨rfl, rfl⟩
  | title :: rest, i, k => by
    by_cases h : c i > t
    · simp [researchLoop, h]
    · cases hfi : f i with
      | transportError m =>
        simpa [researchLoop, h, hfi] using researchLoop_all_fail t f c hf rest (i + 1) k
      | malformed =>
        simpa [researchLoop, h, hfi] using researchLoop_all_fail t f c hf rest (i + 1) k
      | ok pages =>
        cases hfe : firstExtract pages with
        | none =>
          simpa [researchLoop, h, hfi, hfe]
            using researchLoop_all_fail t f c hf rest (i + 1) k
        | some e =>
          exfalso
          have hj := hf i
          rw [hfi] at hj
          simp [fetchFails, hfe] at hj

/-- A run whose clock never beats the deadline produces a list of
sources that the same run under any clock extends to. -/
theorem researchLoop_sources_initial (t : Nat) (f : Nat → ContentResponse)
    (c : Nat → Nat) : ∀ (cands : List String) (i k : Nat),
    ∃ tail, (researchLoop t f c cands i k).sources ++ tail
      = (researchLoop t f (fun _ => 0) cands i k).sources
  | [], _, _ => ⟨[], rfl⟩
  | title :: rest, i, k => by
    by_cases h : c i > t
    · refine ⟨(researchLoop t f (fun _ => 0) (title :: rest) i k).sources, ?_⟩
      simp [researchLoop, h]
    · cases hf : f i with
      | transportError m =>
        simpa [researchLoop, h, hf] using researchLoop_sources_initial t f c rest (i + 1) k
      | malformed =>
        simpa [researchLoop, h, hf] using researchLoop_sources_initial t f c rest (i + 1) k
      | ok pages =>
        cases hfe : firstExtract pages with
        | none =>
          simpa [researchLoop, h, hf, hfe]
            using researchLoop_sources_initial t f c rest (i + 1) k
        | some e =>
          simpa [researchLoop, h, hf, hfe]
            using researchLoop_sources_initial t f c rest (i + 1) (k + 1)

/-- Destructor for a successful run of `deep_research`. -/
theorem deep_research_success_elim {q : String} {d t u : Nat} {env : Env}
    {res : ResearchResult} (h : deep_research q d t u env = .success res) :
    ∃ rs, env.searchResp = .ok rs ∧ rs.isEmpty = false ∧
      (researchLoop t env.fetchResp env.clock (rs.take u) 0 1).blocks.isEmpty = false ∧
      res = ⟨q, (researchLoop t env.fetchResp env.clock (rs.take u) 0 1).sources,
             String.join (researchLoop t env.fetchResp env.clock (rs.take u) 0 1).blocks⟩ := by
  unfold deep_research at h
  split at h
  · simp at h
  · simp at h
  · next rs heq =>
    split at h
    · simp at h
    · next hne =>
      split at h
      · simp at h
      · next hb =>
        refine ⟨rs, heq, Bool.eq_false_iff.mpr hne, Bool.eq_false_iff.mpr hb, ?_⟩
        cases h
        rfl

/-- The snippet truncation really is a truncation: at most `n` chars. -/
theorem pyTake_length_le (n : Nat) (s : String) : (pyTake n s).length ≤ n := by
  show (s.data.take n).length ≤ n
  rw [List.length_take]
  exact Nat.min_le_left n s.data.length

/-! Concrete runs used to instantiate the claim theorems. -/

/-- A happy-path environment: two candidates, every content fetch
returns one page with an extract, the clock never advances. -/
def envA : Env :=
  ⟨.ok ["Alan Turing", "Turing Award"],
   fun _ => .ok [⟨"1", some "Alan Mathison Turing was an English mathematician."⟩],
   fun _ => 0⟩

/-- The loop output of the happy-path run with `max_urls = 2`. -/
def outA : LoopOut :=
  researchLoop 120 envA.fetchResp envA.clock (["Alan Turing", "Turing Award"].take 2) 0 1

/-- The research result of the happy-path run. -/
def resA : ResearchResult := ⟨"Turing", outA.sources, String.join outA.blocks⟩

/-- The first source of the happy-path run. -/
def recA : SourceRecord :=
  ⟨"Alan Turing", wikiUrl "Alan Turing",
   pyTake 1200 "Alan Mathison Turing was an English mathematician."⟩

/-! The claims. -/

/-- C1: for every query with `max_sources = N` (the `max_urls`
argument), a successful `Outcome` of `deep_research` carries between 1
and `N` sources. -/
theorem success_sources_bounds (q : String) (d t u : Nat) (env : Env)
    (res : ResearchResult) (h : deep_research q d t u env = .success res) :
    1 ≤ res.sources.length ∧ res.sources.length ≤ u := by
  obtain ⟨rs, hsr, hne, hblocks, hres⟩ := deep_research_success_elim h
  subst hres
  constructor
  · show 1 ≤ (researchLoop t env.fetchResp env.clock (rs.take u) 0 1).sources.length
    have hlen := researchLoop_blocks_length t env.fetchResp env.clock (rs.take u) 0 1
    rcases hb : (researchLoop t env.fetchResp env.clock (rs.take u) 0 1).blocks with _ | ⟨b, bs⟩
    · rw [hb] at hblocks; simp [List.isEmpty] at hblocks
    · rw [hb] at hlen
      simp only [List.length_cons] at hlen
      omega
  · show (researchLoop t env.fetchResp env.clock (rs.take u) 0 1).sources.length ≤ u
    calc (researchLoop t env.fetchResp env.clock (rs.take u) 0 1).sources.length
        ≤ (rs.take u).length :=
          researchLoop_sources_length_le t env.fetchResp env.clock (rs.take u) 0 1
      _ ≤ u := by rw [List.length_take]; exact Nat.min_le_left u rs.length

/-- C1 witness: the happy-path run succeeds with 2 of at most 2 sources. -/
theorem success_sources_bounds_witness :
    1 ≤ resA.sources.length ∧ resA.sources.length ≤ 2 :=
  success_sources_bounds "Turing" 2 120 2 envA resA (by rfl)

/-- C4: when the search call reports zero candidate titles, the
pipeline fails before any content fetch is issued. -/
theorem empty_search_failure (q : String) (d t u : Nat) (env : Env)
    (hs : env.searchResp = .ok []) :
    deep_research q d t u env = .failure ("No results found for '" ++ q ++ "'")
    ∧ deep_researchFetchCalls t u env = 0 := by
  unfold deep_research deep_researchFetchCalls
  rw [hs]
  simp

/-- C4 witness: a concrete run with an empty search result. -/
def envC4 : Env := ⟨.ok [], fun _ => .malformed, fun _ => 0⟩

/-- C4 witness: with zero candidates the run fails with no fetches. -/
theorem empty_search_failure_witness :
    deep_research "zzzzz_no_such_topic" 1 60 5 envC4
      = .failure ("No results found for '" ++ "zzzzz_no_such_topic" ++ "'")
    ∧ deep_researchFetchCalls 60 5 envC4 = 0 :=
  empty_search_failure "zzzzz_no_such_topic" 1 60 5 envC4 (by rfl)

/-- C6: when the OpenRouter key is set and its call fails while the
Groq key is set and its call succeeds, `call_llm` returns the Groq
content, and the attempt trace is exactly one OpenRouter call followed
by the Groq call: the primary failure does not return early. -/
theorem fallback_secondary (msgs : List Message) (orKey gqKey orMsg content : String)
    (h1 : orKey ≠ "") (h2 : gqKey ≠ "") :
    call_llm msgs orKey (.error orMsg) gqKey (.ok content)
      = (.ok content, [.openrouter, .groq]) := by
  simp [call_llm, h1, h2]

/-- C6 witness: concrete keys, a failing primary, a succeeding
secondary. -/
theorem fallback_secondary_witness :
    call_llm [] "or-key" (.error "HTTP 500") "gq-key" (.ok "fallback summary")
      = (.ok "fallback summary", [.openrouter, .groq]) :=
  fallback_secondary [] "or-key" "gq-key" "HTTP 500" "fallback summary"
    (by decide) (by decide)

/-- C7: `generate_summary` is a total function into strings (the Lean
model never raises); with neither key configured it returns the fixed
unavailable string after zero provider calls, and when the provider
call raises it returns the fallback display string built from the
raised message. -/
theorem summary_never_raises :
    (∀ (orResp gqResp : Except String String) (rd : ResearchResult) (q : String),
        generate_summary "" "" orResp gqResp rd q
          = ("AI summary unavailable - set API key in configuration", []))
    ∧ (∀ (orKey gqKey : String) (orResp gqResp : Except String String)
        (rd : ResearchResult) (q : String) (e : String) (tr : List ProviderAttempt),
        (orKey ≠ "" ∨ gqKey ≠ "") →
        call_llm (summaryMessages rd q) orKey orResp gqKey gqResp = (.raised e, tr) →
        generate_summary orKey gqKey orResp gqResp rd q
          = ("Summary generation failed: " ++ e, tr)) := by
  constructor
  · intro orResp gqResp rd q
    simp [generate_summary]
  · intro orKey gqKey orResp gqResp rd q e tr hk hc
    unfold generate_summary
    rw [if_neg (by tauto), hc]

/-- A concrete research result fed to the summarizer witnesses. -/
def rdW : ResearchResult := ⟨"t", [recA], ""⟩

/-- C7 witness: both scenarios at concrete inputs. -/
theorem summary_never_raises_witness :
    generate_summary "" "" (.ok "x") (.ok "y") rdW "topic"
      = ("AI summary unavailable - set API key in configuration", [])
    ∧ generate_summary "" "gq-key" (.error "a") (.error "refused") rdW "topic"
      = ("Summary generation failed: " ++ ("Groq call failed: " ++ "refused"), [.groq]) :=
  ⟨summary_never_raises.1 (.ok "x") (.ok "y") rdW "topic",
   summary_never_raises.2 "" "gq-key" (.error "a") (.error "refused") rdW "topic"
     ("Groq call failed: " ++ "refused") [.groq] (Or.inr (by decide)) (by rfl)⟩

/-- C10: the `max_depth` argument is never read in the body of
`deep_research`, so two runs differing only in it return the same
`Outcome` (and issue the same fetches). -/
theorem max_depth_independent (q : String) (d₁ d₂ t u : Nat) (env : Env) :
    deep_research q d₁ t u env = deep_research q d₂ t u env := rfl

/-- C2 (amended: prefix rather than strict prefix): (1) when a run and
its deadline-free twin (same query, fetch outcomes, limits; clock
pinned to 0) both succeed, the run's sources extend to the twin's
sources in order; (2) the same holds for the raw loop under any clock;
(3) the deadline is checked before each iteration: with the clock past
the deadline the loop stops with no fetch issued. -/
theorem deadline_initial_segment :
    (∀ (q : String) (d t u : Nat) (env : Env) (res res' : ResearchResult),
        deep_research q d t u env = .success res →
        deep_research q d t u ⟨env.searchResp, env.fetchResp, fun _ => 0⟩ = .success res' →
        ∃ tail, res.sources ++ tail = res'.sources)
    ∧ (∀ (t : Nat) (f : Nat → ContentResponse) (c : Nat → Nat)
        (cands : List String) (i k : Nat),
        ∃ tail, (researchLoop t f c cands i k).sources ++ tail
          = (researchLoop t f (fun _ => 0) cands i k).sources)
    ∧ (∀ (t : Nat) (f : Nat → ContentResponse) (c : Nat → Nat) (title : String)
        (rest : List String) (i k : Nat), c i > t →
        researchLoop t f c (title :: rest) i k = ⟨[], [], 0, true⟩) := by
  refine ⟨?_, researchLoop_sources_initial, ?_⟩
  · intro q d t u env res res' h h'
    obtain ⟨rs, hsr, _, _, hres⟩ := deep_research_success_elim h
    obtain ⟨rs', hsr', _, _, hres'⟩ := deep_research_success_elim h'
    simp only at hsr' hres'
    rw [hsr] at hsr'
    cases hsr'
    subst hres hres'
    exact researchLoop_sources_initial t env.fetchResp env.clock (rs.take u) 0 1
  · intro t f c title rest i k hc
    simp [researchLoop, hc]

/-- C2 data: the first fetch yields a page, later fetches fail. -/
def fetchC2 : Nat → ContentResponse :=
  fun i => if i = 0 then .ok [⟨"1", some "alpha body text"⟩] else .transportError "timeout"

/-- C2 data: the clock passes the deadline after the first iteration. -/
def clockC2 : Nat → Nat := fun i => if i = 0 then 0 else 200

/-- C2 data: environment whose deadline elapses mid-loop. -/
def envC2 : Env := ⟨.ok ["Alpha", "Beta"], fetchC2, clockC2⟩

/-- C2 data: loop output of the deadline run. -/
def outC2 : LoopOut := researchLoop 100 envC2.fetchResp envC2.clock (["Alpha", "Beta"].take 5) 0 1

/-- C2 data: result of the deadline run. -/
def resC2 : ResearchResult := ⟨"q", outC2.sources, String.join outC2.blocks⟩

/-- C2 data: loop output of the deadline-free twin run. -/
def outC2f : LoopOut :=
  researchLoop 100 envC2.fetchResp (fun _ => 0) (["Alpha", "Beta"].take 5) 0 1

/-- C2 data: result of the deadline-free twin run. -/
def resC2f : ResearchResult := ⟨"q", outC2f.sources, String.join outC2f.blocks⟩

/-- C2 witness: a deadline run whose sources extend to the free run's
sources, and a loop stopped cold by an elapsed deadline. -/
theorem deadline_initial_segment_witness :
    (∃ tail, resC2.sources ++ tail = resC2f.sources)
    ∧ researchLoop 100 fetchC2 clockC2 ["Beta"] 1 2 = ⟨[], [], 0, true⟩ :=
  ⟨deadline_initial_segment.1 "q" 1 100 5 envC2 resC2 resC2f (by rfl) (by rfl),
   deadline_initial_segment.2.2 100 fetchC2 clockC2 "Beta" [] 1 2 (by decide)⟩

/-- C2 counterexample data: first fetch succeeds, second would fail. -/
def fetchCE : Nat → ContentResponse :=
  fun i => if i = 0 then .ok [⟨"1", some "alpha body text"⟩] else .transportError "timeout"

/-- C2 counterexample data: deadline elapses before iteration 1. -/
def clockCE : Nat → Nat := fun i => if i = 0 then 0 else 50

/-- C2 counterexample: the deadline elapses mid-loop (the loop breaks
with the candidate "Beta" unprocessed), yet the deadline run's sources
EQUAL the deadline-free run's sources — a prefix, but not a strict
one, refuting the claim's strictness. -/
theorem deadline_strict_counterexample :
    (researchLoop 10 fetchCE clockCE ["Alpha", "Beta"] 0 1).brokeEarly = true
    ∧ (researchLoop 10 fetchCE clockCE ["Alpha", "Beta"] 0 1).sources
        = (researchLoop 10 fetchCE (fun _ => 0) ["Alpha", "Beta"] 0 1).sources := by
  constructor
  · decide
  · decide

/-- C3 amended: when the search succeeds with at least one candidate
and every content fetch fails, the pipeline returns
`Failure("Could not retrieve any content")` (capital C, as in the
code), has issued at most `max_urls` content fetches, and has accepted
zero sources. -/
theorem all_fetches_fail (q : String) (d t u : Nat) (env : Env) (rs : List String)
    (hs : env.searchResp = .ok rs) (hne : rs.isEmpty = false)
    (hf : ∀ j, fetchFails (env.fetchResp j) = true) :
    deep_research q d t u env = .failure "Could not retrieve any content"
    ∧ deep_researchFetchCalls t u env ≤ u
    ∧ (researchLoop t env.fetchResp env.clock (rs.take u) 0 1).sources = [] := by
  obtain ⟨hsrc, hblk⟩ :=
    researchLoop_all_fail t env.fetchResp env.clock hf (rs.take u) 0 1
  refine ⟨?_, ?_, hsrc⟩
  · unfold deep_research
    rw [hs]
    simp [hne, hblk]
  · have hred : deep_researchFetchCalls t u env
        = (researchLoop t env.fetchResp env.clock (rs.take u) 0 1).fetchCalls := by
      unfold deep_researchFetchCalls
      rw [hs]
      simp [hne]
    rw [hred]
    calc (researchLoop t env.fetchResp env.clock (rs.take u) 0 1).fetchCalls
        ≤ (rs.take u).length :=
          researchLoop_fetchCalls_le t env.fetchResp env.clock (rs.take u) 0 1
      _ ≤ u := by rw [List.length_take]; exact Nat.min_le_left u rs.length

/-- C3 data: two candidates, every content fetch raises. -/
def envC3 : Env := ⟨.ok ["Alpha", "Beta"], fun _ => .transportError "boom", fun _ => 0⟩

/-- C3 witness: the amended claim at the concrete all-failing run. -/
theorem all_fetches_fail_witness :
    deep_research "q" 1 100 2 envC3 = .failure "Could not retrieve any content"
    ∧ deep_researchFetchCalls 100 2 envC3 ≤ 2
    ∧ (researchLoop 100 envC3.fetchResp envC3.clock (["Alpha", "Beta"].take 2) 0 1).sources = [] :=
  all_fetches_fail "q" 1 100 2 envC3 ["Alpha", "Beta"] (by rfl) (by rfl) (fun j => by rfl)

/-- C3 counterexample: the reason string the code returns is
`"Could not retrieve any content"`, with a capital C, not the
claim's `"could not retrieve any content"`. -/
theorem all_fetches_fail_reason_counterexample :
    deep_research "q" 1 100 2 envC3 = .failure "Could not retrieve any content"
    ∧ deep_research "q" 1 100 2 envC3 ≠ .failure "could not retrieve any content" := by
  constructor
  · decide
  · decide

/-- C5 amended: within one content response, exactly one
`SourceRecord` is produced for the title, taken from the first page id
whose page object carries an `"extract"` field — even when that
extract is the empty string; subsequent page ids are ignored. -/
theorem first_extract_field_wins :
    (∀ (pid e : String) (ps : List Page), firstExtract (⟨pid, some e⟩ :: ps) = some e)
    ∧ (∀ (pid : String) (ps : List Page),
        firstExtract (⟨pid, none⟩ :: ps) = firstExtract ps)
    ∧ (∀ (t : Nat) (f : Nat → ContentResponse) (c : Nat → Nat) (title : String)
        (i k : Nat) (pages : List Page) (e : String),
        ¬ c i > t → f i = .ok pages → firstExtract pages = some e →
        (researchLoop t f c [title] i k).sources
          = [⟨title, wikiUrl title, pyTake 1200 e⟩]) := by
  refine ⟨fun pid e ps => rfl, fun pid ps => rfl, ?_⟩
  intro t f c title i k pages e hc hf hfe
  simp [researchLoop, hc, hf, hfe]

/-- C5 data: a content response with two page ids for the title, the
first with an empty extract, the second with a non-empty one. -/
def pagesC5 : List Page := [⟨"17", some ""⟩, ⟨"23", some "hello world"⟩]

/-- C5 witness: the amended claim at the two-page response — the
record is built from the first page id's (empty) extract. -/
theorem first_extract_field_wins_witness :
    (researchLoop 100 (fun _ => .ok pagesC5) (fun _ => 0) ["Topic"] 0 1).sources
      = [⟨"Topic", wikiUrl "Topic", pyTake 1200 ""⟩] :=
  first_extract_field_wins.2.2 100 (fun _ => .ok pagesC5) (fun _ => 0) "Topic" 0 1
    pagesC5 "" (by decide) (by rfl) (by rfl)

/-- C5 counterexample: on that response the produced snippet is the
empty first extract, not the non-empty extract `"hello world"` of the
later page id that the claim's "first page id with a non-empty
extract" would select. -/
theorem first_extract_nonempty_counterexample :
    (researchLoop 100 (fun _ => .ok pagesC5) (fun _ => 0) ["Topic"] 0 1).sources
      = [⟨"Topic", wikiUrl "Topic", ""⟩]
    ∧ ("" : String) ≠ pyTake 1200 "hello world" := by
  constructor
  · decide
  · decide

/-- C8: every source of every successful run has as snippet the first
1200 characters of the extract the content endpoint returned for it
(the extract of the first page with an `"extract"` field in one of the
run's content responses), hence at most 1200 characters. -/
theorem snippet_truncated (q : String) (d t u : Nat) (env : Env)
    (res : ResearchResult) (s : SourceRecord)
    (h : deep_research q d t u env = .success res) (hs : s ∈ res.sources) :
    (∃ j pages e, env.fetchResp j = .ok pages ∧ firstExtract pages = some e ∧
      s.snippet = pyTake 1200 e) ∧ s.snippet.length ≤ 1200 := by
  obtain ⟨rs, hsr, hne, hblocks, hres⟩ := deep_research_success_elim h
  subst hres
  obtain ⟨-, j, pages, e, hj, hfe, hsnip⟩ :=
    researchLoop_mem_sources t env.fetchResp env.clock (rs.take u) 0 1 s hs
  exact ⟨⟨j, pages, e, hj, hfe, hsnip⟩, by rw [hsnip]; exact pyTake_length_le 1200 e⟩

/-- C8 witness: the first source of the happy-path run. -/
theorem snippet_truncated_witness :
    (∃ j pages e, envA.fetchResp j = .ok pages ∧ firstExtract pages = some e ∧
      recA.snippet = pyTake 1200 e) ∧ recA.snippet.length ≤ 1200 :=
  snippet_truncated "Turing" 2 120 2 envA resA recA (by rfl) (by decide)

/-- C9: every source of every successful run has the display URL built
from its own title verbatim, spaces replaced by underscores only. -/
theorem url_from_title (q : String) (d t u : Nat) (env : Env)
    (res : ResearchResult) (s : SourceRecord)
    (h : deep_research q d t u env = .success res) (hs : s ∈ res.sources) :
    s.url = "https://en.wikipedia.org/wiki/" ++ pyReplaceSpaceUnderscore s.title := by
  obtain ⟨rs, hsr, hne, hblocks, hres⟩ := deep_research_success_elim h
  subst hres
  obtain ⟨hurl, -⟩ :=
    researchLoop_mem_sources t env.fetchResp env.clock (rs.take u) 0 1 s hs
  exact hurl

/-- C9 witness: the source titled "Alan Turing" gets the URL ending in
`Alan_Turing`. -/
theorem url_from_title_witness :
    recA.url = "https://en.wikipedia.org/wiki/" ++ pyReplaceSpaceUnderscore recA.title :=
  url_from_title "Turing" 2 120 2 envA resA recA (by rfl) (by decide)

end Wiki
